import Mathlib

/-!
Shallow embedding of the certmagic-azblob storage backend (src/azblob.go).

The Go file implements the certmagic.Storage contract over an Azure blob
container.  We model:

  * Go `error` values as `Option GoError` (`none` = nil) or `Except GoError`,
    where a `GoError` is either the distinguished `fs.ErrNotExist` sentinel
    or an arbitrary error identified by its message string (the code only
    ever inspects errors through their message text, in `DoesBlobExists`).
  * the remote container as a list of blobs (name, payload bytes,
    last-modified stamp); the ideal remote responses (`downloadResp`,
    `getPropsResp`, `segResp`) answer each request from that state, with a
    404 message when the named blob is absent.
  * each Go method as a pure function.  The error-handling logic of every
    method is a separate `...Logic` function that is parametric in the
    remote call outcome, so that transport-failure behaviour can be stated;
    the top-level `CaddyAzblob.*` operations compose that logic with the
    ideal remote responses.
  * `Lock`/`Unlock` exactly as the source has them: the lease code is
    commented out and both methods unconditionally return nil.
-/

/-- Go error values as the azblob code observes them: either the
distinguished `fs.ErrNotExist` sentinel or an error carrying a message. -/
inductive GoError where
  | errNotExist : GoError
  | msg : String → GoError
deriving DecidableEq, Repr

/-- The `Error()` string of a Go error value. -/
def GoError.message : GoError → String
  | .errNotExist => "file does not exist"
  | .msg s => s

/-- Boolean test: `sub` is a leading segment of `s` (character lists). -/
def hasPref : List Char → List Char → Bool
  | _, [] => true
  | [], _ :: _ => false
  | a :: as, b :: bs => a == b && hasPref as bs

/-- Boolean test: `sub` occurs contiguously somewhere in `s`
(character lists), matching Go `strings.Contains`. -/
def hasSub (sub : List Char) : List Char → Bool
  | [] => hasPref [] sub
  | a :: as => hasPref (a :: as) sub || hasSub sub as

/-- Go `strings.Contains s sub`. -/
def strContains (s sub : String) : Bool :=
  hasSub sub.data s.data

/-- The error text the Azure store returns for a missing blob; the code
recognises the not-found condition by this substring. -/
def msg404 : String := "404 The specified blob does not exist"

/-- Direct translation of `DoesBlobExists` (src/azblob.go:227): nil means
the blob exists; otherwise the blob exists unless the error message
contains the 404 text. -/
def DoesBlobExists (err : Option GoError) : Bool :=
  match err with
  | none => true
  | some e => !(strContains e.message msg404)

/-- One blob of the remote container: name, payload bytes, last-modified
stamp maintained by the store. -/
structure BlobItem where
  name : String
  data : List Nat
  modified : Nat
deriving DecidableEq, Repr

/-- The remote container state: the blobs it currently holds. -/
abbrev ContainerState := List BlobItem

/-- The names of all blobs in the container, in listing order. -/
def namesOf (st : ContainerState) : List String :=
  st.map (fun b => b.name)

/-- Look up a blob by exact name. -/
def findBlob (st : ContainerState) (key : String) : Option BlobItem :=
  st.find? (fun b => b.name == key)

/-- Ideal remote response to `blobURL.Download`: the payload when the blob
exists, else an error whose message carries the 404 text. -/
def downloadResp (st : ContainerState) (key : String) : Except GoError (List Nat) :=
  match findBlob st key with
  | some b => .ok b.data
  | none => .error (.msg msg404)

/-- Ideal remote response to `blobURL.GetProperties`: the last-modified
stamp when the blob exists, else the 404 error. -/
def getPropsResp (st : ContainerState) (key : String) : Except GoError Nat :=
  match findBlob st key with
  | some b => .ok b.modified
  | none => .error (.msg msg404)

/-- Ideal remote response to `ListBlobsFlatSegment` with an empty marker:
every blob of the container in one segment. -/
def segResp (st : ContainerState) : Except GoError (List BlobItem) :=
  .ok st

/-- Effect of `blobURL.Upload` on the container: unconditional overwrite of
the named blob, last-modified set to the upload time `t`. -/
def storeBlob (st : ContainerState) (key : String) (value : List Nat) (t : Nat) : ContainerState :=
  st.filter (fun b => !(b.name == key)) ++ [⟨key, value, t⟩]

/-- Error-handling logic of `CaddyAzblob.Load` (src/azblob.go:138),
parametric in the download outcome `dl` and the body-read outcome
`readErr`.  Mirrors the source line by line: a download error that fails
the `DoesBlobExists` test returns `fs.ErrNotExist`; any other non-nil
download error ALSO returns `fs.ErrNotExist` (the second branch of the
source); a body-read error is returned as-is; otherwise the bytes. -/
def loadLogic (dl : Except GoError (List Nat)) (readErr : Option GoError) : Except GoError (List Nat) :=
  match dl with
  | .error e =>
    if !(DoesBlobExists (some e)) then
      .error .errNotExist
    else
      .error .errNotExist
  | .ok body =>
    match readErr with
    | some e => .error e
    | none => .ok body

/-- `CaddyAzblob.Load` against the ideal remote (body reads succeed). -/
def CaddyAzblob.Load (st : ContainerState) (key : String) : Except GoError (List Nat) :=
  loadLogic (downloadResp st key) none

/-- `CaddyAzblob.Store` (src/azblob.go:129) against the ideal remote: the
upload succeeds, overwriting the blob; the method returns the upload
error, here nil. -/
def CaddyAzblob.Store (st : ContainerState) (key : String) (value : List Nat) (t : Nat) :
    ContainerState × Option GoError :=
  (storeBlob st key value t, none)

/-- Logic of `CaddyAzblob.List` (src/azblob.go:187), parametric in the
flat-segment outcome: propagate a listing error, otherwise collect the
blob names.  The method ignores its `prefix` and `recursive` arguments. -/
def listFromSeg (seg : Except GoError (List BlobItem)) : Except GoError (List String) :=
  match seg with
  | .error e => .error e
  | .ok items => .ok (items.map (fun b => b.name))

/-- `CaddyAzblob.List` against the ideal remote.  `pre` and `recursive`
are the source arguments, accepted and unused. -/
def CaddyAzblob.List (st : ContainerState) (_pre : String) (_recursive : Bool) :
    Except GoError (List String) :=
  listFromSeg (segResp st)

/-- Logic of `CaddyAzblob.Exists` (src/azblob.go:170), parametric in the
result of the `List` call it makes: on a listing error return `false`
(no error channel exists in the signature); otherwise report whether some
listed name contains `key` as a substring. -/
def existsLogic (key : String) (listRes : Except GoError (List String)) : Bool :=
  match listRes with
  | .error _ => false
  | .ok items => items.any (fun v => strContains v key)

/-- `CaddyAzblob.Exists` against the ideal remote: it calls
`blob.List(ctx, key, true)` and scans the names. -/
def CaddyAzblob.Exists (st : ContainerState) (key : String) : Bool :=
  existsLogic key (CaddyAzblob.List st key true)

/-- The record `certmagic.KeyInfo` as `Stat` fills it. -/
structure KeyInfo where
  key : String
  modified : Nat
  size : Int
  isTerminal : Bool
deriving DecidableEq, Repr

/-- Outcome of `CaddyAzblob.Stat`: a `KeyInfo`, an error, or the nil
dereference the source hits when `GetProperties` failed with a non-404
error (so `resp` is nil) and the subsequent `Load` nevertheless
succeeded, making it reach `resp.LastModified()`. -/
inductive StatResult where
  | ok : KeyInfo → StatResult
  | err : GoError → StatResult
  | nilDeref : StatResult
deriving DecidableEq, Repr

/-- Logic of `CaddyAzblob.Stat` (src/azblob.go:204), parametric in the
`GetProperties` outcome and the `Load` outcome.  Mirrors the source:
`if err != nil && !DoesBlobExists(err)` returns that error (this fires
exactly when the properties error carries the 404 text); then the `Load`
result is checked; then the record is built from `resp.LastModified()`,
the loaded length, and a terminal flag fixed to true. -/
def statLogic (key : String) (props : Except GoError Nat) (loadRes : Except GoError (List Nat)) :
    StatResult :=
  match props with
  | .error e =>
    if !(DoesBlobExists (some e)) then
      .err e
    else
      match loadRes with
      | .error e2 => .err e2
      | .ok _ => .nilDeref
  | .ok t =>
    match loadRes with
    | .error e2 => .err e2
    | .ok data => .ok ⟨key, t, Int.ofNat data.length, true⟩

/-- `CaddyAzblob.Stat` against the ideal remote: a `GetProperties` probe
followed by a full `Load` of the same key. -/
def CaddyAzblob.Stat (st : ContainerState) (key : String) : StatResult :=
  statLogic key (getPropsResp st key) (CaddyAzblob.Load st key)

/-- `CaddyAzblob.Lock` (src/azblob.go:106) as the source has it: the lease
acquisition is commented out and the method returns nil for every holder
token and key, touching no remote state. -/
def CaddyAzblob.Lock (_uuid : String) (_key : String) : Option GoError :=
  none

/-- `CaddyAzblob.Unlock` (src/azblob.go:117) as the source has it: the
lease release is commented out and the method returns nil for every
holder token and key, touching no remote state. -/
def CaddyAzblob.Unlock (_uuid : String) (_key : String) : Option GoError :=
  none

/-- Whether a `StatResult` is an error return. -/
def statIsErr : StatResult → Bool
  | .err _ => true
  | _ => false

/-- Whether a `GetProperties` outcome is the not-found condition (the
error message carries the 404 text). -/
def probeNotFound (props : Except GoError Nat) : Bool :=
  match props with
  | .error e => !(DoesBlobExists (some e))
  | .ok _ => false

/-- Whether a `Load` outcome is an error. -/
def loadFailed (l : Except GoError (List Nat)) : Bool :=
  match l with
  | .error _ => true
  | .ok _ => false

/-! ## Helper lemmas -/

/-- Any download error makes `loadLogic` return `fs.ErrNotExist`: both
error branches of the source return that sentinel. -/
theorem loadLogic_error (e : GoError) (r : Option GoError) :
    loadLogic (.error e) r = .error .errNotExist := by
  simp [loadLogic]

/-- After an upload of `value` under `key`, looking up `key` finds exactly
the uploaded blob. -/
theorem findBlob_store (st : ContainerState) (k : String) (v : List Nat) (t : Nat) :
    findBlob (storeBlob st k v t) k = some ⟨k, v, t⟩ := by
  unfold findBlob storeBlob
  induction st with
  | nil => simp
  | cons b bs ih =>
    by_cases h : b.name = k
    · simp [List.filter_cons, h, ih]
    · simp [List.filter_cons, h, List.find?_cons, ih]

/-! ## Claim theorems -/

/-- Claim C1 (refuted by the code, recorded as a code bug): the source
`Lock` is a no-op — for any two holder tokens `a` and `b` and any key,
both `Lock` calls return nil (success) with no remote lease interaction,
and this is independent of any prior `Unlock`; so a `Lock` by `b` is NOT
rejected while `a` "holds" the lock, contradicting the claimed mutual
exclusion. -/
theorem Lock_no_mutual_exclusion (a b k : String) :
    CaddyAzblob.Lock a k = none ∧ CaddyAzblob.Lock b k = none ∧
      CaddyAzblob.Unlock a k = none :=
  ⟨rfl, rfl, rfl⟩

/-- Claim C2: `Load` of a key absent from the container fails with the
distinguished `fs.ErrNotExist` sentinel, derived from the store's 404
error, not with a generic error. -/
theorem Load_absent_is_notExist (st : ContainerState) (k : String)
    (h : findBlob st k = none) :
    CaddyAzblob.Load st k = .error GoError.errNotExist := by
  unfold CaddyAzblob.Load downloadResp
  rw [h]
  exact loadLogic_error _ _

/-- Witness for C2 at a concrete input: the empty container has no blob
named `certificates/a.com/a.com.crt`, and `Load` of it is `ErrNotExist`. -/
theorem Load_absent_is_notExist_witness :
    findBlob [] "certificates/a.com/a.com.crt" = none ∧
    CaddyAzblob.Load [] "certificates/a.com/a.com.crt" = .error GoError.errNotExist :=
  ⟨rfl, Load_absent_is_notExist [] "certificates/a.com/a.com.crt" rfl⟩

/-- Claim C3 (refuted by the code, recorded as a code bug): a download
failure whose message does NOT carry the 404 text (here a 401 auth
failure, so `DoesBlobExists` holds of it) is nevertheless returned by
`Load` as `fs.ErrNotExist` — the non-404 branch of the source also
returns the not-found sentinel instead of surfacing the error. -/
theorem Load_downgrades_transport_error :
    DoesBlobExists (some (GoError.msg "401 Server failed to authenticate the request")) = true ∧
    loadLogic (.error (GoError.msg "401 Server failed to authenticate the request")) none =
      .error GoError.errNotExist :=
  ⟨by decide, loadLogic_error _ _⟩

/-- Claim C4: a successful `Store` of payload `v` under key `k` followed
by a `Load` of `k` (no intervening delete/overwrite) returns exactly
`v`. -/
theorem Store_then_Load_roundtrip (st : ContainerState) (k : String) (v : List Nat) (t : Nat) :
    (CaddyAzblob.Store st k v t).2 = none ∧
    CaddyAzblob.Load (CaddyAzblob.Store st k v t).1 k = .ok v := by
  refine ⟨rfl, ?_⟩
  show loadLogic (downloadResp (storeBlob st k v t) k) none = .ok v
  unfold downloadResp
  rw [findBlob_store]
  rfl

/-- Claim C5: `Exists st k` is true exactly when some blob name of the
full container listing contains `k` as a substring; the check goes
through the listing only (the definition of `CaddyAzblob.Exists` calls
`CaddyAzblob.List` and performs no per-key probe). -/
theorem Exists_iff_substring (st : ContainerState) (k : String) :
    CaddyAzblob.Exists st k = true ↔ ∃ v ∈ namesOf st, strContains v k = true := by
  simp [CaddyAzblob.Exists, existsLogic, CaddyAzblob.List, listFromSeg, segResp, namesOf,
    List.any_eq_true]

/-- Claim C6: `List` returns the names of all blobs of the container, in
one flat segment, and the result does not depend on the `prefix` or
`recursive` arguments (the right-hand side mentions neither). -/
theorem List_ignores_args (st : ContainerState) (pre : String) (r : Bool) :
    CaddyAzblob.List st pre r = .ok (namesOf st) :=
  rfl

/-- Claim C7 counterexample: with the metadata probe failing with the
not-found (404) condition and the `Load` outcome a success, `Stat`
returns that error — it fails before the `Load` step on a not-found
probe, and with a real (non-404) probe error and a successful `Load` it
does not return an error at all (it reaches the nil dereference) — the
reverse of the claimed condition. -/
theorem Stat_counterexample :
    statLogic "k" (.error (GoError.msg msg404)) (.ok [99]) = .err (GoError.msg msg404) ∧
    DoesBlobExists (some (GoError.msg msg404)) = false ∧
    statLogic "k" (.error (GoError.msg "500 Operation could not be completed")) (.ok [99]) =
      .nilDeref := by
  decide

/-- Claim C7 as amended: `Stat` returns an error exactly when the
metadata probe fails with the not-found condition (its error is returned
before the `Load` result is consulted) or when the `Load` outcome is an
error; a real probe error distinct from not-found never causes an error
return by itself. -/
theorem Stat_fails_iff (k : String) (props : Except GoError Nat)
    (l : Except GoError (List Nat)) :
    statIsErr (statLogic k props l) = (probeNotFound props || loadFailed l) := by
  cases props with
  | error e =>
    cases l <;>
      simp only [statLogic, statIsErr, probeNotFound, loadFailed] <;>
      cases h : DoesBlobExists (some e) <;>
      simp [h, statIsErr]
  | ok t =>
    cases l <;> simp [statLogic, statIsErr, probeNotFound, loadFailed]

/-- Claim C8: after a successful `Store` of payload `v` under `k`, `Stat`
of `k` succeeds and returns the record with key `k`, the upload stamp,
size equal to the byte length of `v`, and the terminal flag true. -/
theorem Stat_after_Store (st : ContainerState) (k : String) (v : List Nat) (t : Nat) :
    (CaddyAzblob.Store st k v t).2 = none ∧
    CaddyAzblob.Stat (CaddyAzblob.Store st k v t).1 k =
      .ok ⟨k, t, Int.ofNat v.length, true⟩ := by
  refine ⟨rfl, ?_⟩
  show statLogic k (getPropsResp (storeBlob st k v t) k)
      (CaddyAzblob.Load (storeBlob st k v t) k) = _
  unfold CaddyAzblob.Load downloadResp getPropsResp
  rw [findBlob_store]
  rfl

/-- Claim C9 (refuted by the code, recorded as a code bug): the source
`Unlock` is a no-op — for every holder token and key, including tokens
that never acquired anything, it returns nil (success) instead of
failing. -/
theorem Unlock_always_succeeds (u k : String) :
    CaddyAzblob.Unlock u k = none :=
  rfl

/-- Claim C10: when the listing request underlying `Exists` fails with
any error, `Exists` returns `false` (its Bool-only signature reports no
error), the same value it returns when the container is empty and the
key absent — a transport failure is indistinguishable from absence. -/
theorem Exists_error_false (e : GoError) (k : String) :
    existsLogic k (listFromSeg (.error e)) = false ∧
    existsLogic k (listFromSeg (.ok [])) = false :=
  ⟨rfl, rfl⟩
